import Mathlib

/-!
Verification development for the VMware module installation wizard
(scripts/vmware_wizard.py).

The Python script is shallowly embedded below:

* Python string helpers (`str.split`, `str.strip`, `int(...)`) are modelled
  over `List Char` by structural recursion, so every definition evaluates
  inside the kernel.
* The filesystem is modelled abstractly: a directory entry carries its name,
  whether it is a directory, and whether its `build` child exists and is a
  directory.  `sorted(modules_dir.iterdir())` is modelled by a stable
  insertion sort on names (Python's sort is stable, so any stable sort by
  name is extensionally the same function).
* Subprocess interactions are modelled by outcome datatypes; a Python
  `try/except` block is modelled as a function into `Except PyExn`, with the
  handler applied on top.
* JSON/dict values are modelled by the inductive `PyVal`; Python dicts keep
  insertion order, so a dict is a list of key/value pairs in insertion order.
-/

/-- The value of an ASCII digit character. -/
def digitVal (c : Char) : Nat := c.toNat - 48

/-- Continuation of Python `int` digit parsing: after at least one digit has
been read, an underscore is allowed only when immediately followed by another
digit (Python 3 underscore rule). -/
def pyDigitsAux : List Char → Nat → Option Nat
  | [], acc => some acc
  | '_' :: d :: rest, acc =>
    if d.isDigit then pyDigitsAux rest (10 * acc + digitVal d) else none
  | c :: rest, acc =>
    if c.isDigit then pyDigitsAux rest (10 * acc + digitVal c) else none

/-- Parse a nonempty run of ASCII digits (with Python 3 underscore rule);
the first character must be a digit. -/
def pyDigits : List Char → Option Nat
  | [] => none
  | c :: rest => if c.isDigit then pyDigitsAux rest (digitVal c) else none

/-- Drop leading and trailing whitespace, as Python `str.strip()` does
before `int` conversion. -/
def stripChars (cs : List Char) : List Char :=
  ((cs.dropWhile Char.isWhitespace).reverse.dropWhile Char.isWhitespace).reverse

/-- Model of Python `int(s)` on a character list: optional surrounding
whitespace, an optional single sign, then a nonempty digit run.  Returns
`none` exactly when Python raises `ValueError`. -/
def pyIntChars (cs : List Char) : Option Int :=
  match stripChars cs with
  | '+' :: rest => (pyDigits rest).map Int.ofNat
  | '-' :: rest => (pyDigits rest).map (fun n => -(n : Int))
  | other => (pyDigits other).map Int.ofNat

/-- Model of Python `int(s)` on a string. -/
def pyInt (s : String) : Option Int := pyIntChars s.toList

/-- Model of Python `s.split(sep)` for a single-character separator:
splits on every occurrence, keeping empty pieces, and always returns at
least one piece. -/
def splitOnChar (sep : Char) : List Char → List (List Char)
  | [] => [[]]
  | c :: rest =>
    if c == sep then [] :: splitOnChar sep rest
    else
      match splitOnChar sep rest with
      | [] => [[c]]
      | g :: gs => (c :: g) :: gs

/-- The piece of `s` before the first dash: `s.split('-')[0]`.  Python's
`split` always returns a nonempty list, so the index never fails. -/
def dashPrefix (s : String) : List Char :=
  match splitOnChar '-' s.toList with
  | [] => []
  | p :: _ => p

/-- The dot-separated components of the dash prefix:
`full_version.split('-')[0].split('.')`. -/
def versionParts (s : String) : List (List Char) :=
  splitOnChar '.' (dashPrefix s)

/-- Indexing into the component list (`parts[i]`; the empty list stands in
for positions the script never reads, guarded by its length checks). -/
def partAt (ps : List (List Char)) (i : Nat) : List Char := ps.getD i []

/-- The version-parsing block of `detect_installed_kernels` (the `try` body):
`major = int(parts[0])`, `minor = int(parts[1]) if len > 1 else 0`,
`patch = int(parts[2]) if len > 2 else 0`.  Returns `none` exactly when the
Python code hits `ValueError` and skips the entry. -/
def parseKernelName (full_version : String) : Option (Int × Int × Int) :=
  let parts := versionParts full_version
  match pyIntChars (partAt parts 0) with
  | none => none
  | some major =>
    match (if parts.length > 1 then pyIntChars (partAt parts 1) else some 0) with
    | none => none
    | some minor =>
      match (if parts.length > 2 then pyIntChars (partAt parts 2) else some 0) with
      | none => none
      | some patch => some (major, minor, patch)

/-- Abstract view of one entry of the module root directory listing:
its name, whether it is a directory, and the status of its `build` child. -/
structure DirEntry where
  name : String
  isDir : Bool
  buildExists : Bool
  buildIsDir : Bool
deriving DecidableEq, Repr

/-- The `KernelInfo` dataclass of the script. -/
structure KernelInfo where
  version : String
  full_version : String
  major : Int
  minor : Int
  patch : Int
  headers_installed : Bool
  headers_path : String
  is_current : Bool
  supported : Bool
deriving DecidableEq, Repr

/-- The per-entry body of the `detect_installed_kernels` loop: skip
non-directories, parse the version (skipping on failure), then build the
`KernelInfo` record exactly as the script does. -/
def mkKernelInfo (current_kernel : String) (e : DirEntry) : Option KernelInfo :=
  if !e.isDir then none
  else
    match parseKernelName e.name with
    | none => none
    | some (major, minor, patch) =>
      some {
        version := toString major ++ "." ++ toString minor
        full_version := e.name
        major := major
        minor := minor
        patch := patch
        headers_installed := e.buildExists && e.buildIsDir
        headers_path := "/lib/modules/" ++ e.name ++ "/build"
        is_current := e.name == current_kernel
        supported := major == 6 && (minor == 16 || minor == 17 || minor == 18)
      }

/-- Lexicographic comparison of character lists by code point: the order
Python uses to compare the path strings in `sorted(modules_dir.iterdir())`. -/
def strLe : List Char → List Char → Bool
  | [], _ => true
  | _ :: _, [] => false
  | a :: as, b :: bs => if a < b then true else if b < a then false else strLe as bs

/-- Name order on directory entries. -/
def nameLe (a b : DirEntry) : Prop := strLe a.name.toList b.name.toList = true

instance : DecidableRel nameLe := fun a b =>
  inferInstanceAs (Decidable (strLe a.name.toList b.name.toList = true))

theorem strLe_total (as bs : List Char) : strLe as bs = true ∨ strLe bs as = true := by
  induction as generalizing bs with
  | nil => left; rfl
  | cons a as ih =>
    cases bs with
    | nil => right; rfl
    | cons b bs =>
      rcases lt_trichotomy a b with h | h | h
      · left; simp [strLe, h]
      · subst h
        rcases ih bs with h2 | h2
        · left; simp [strLe, lt_irrefl, h2]
        · right; simp [strLe, lt_irrefl, h2]
      · right; simp [strLe, h]

theorem strLe_trans {as bs cs : List Char} (h1 : strLe as bs = true)
    (h2 : strLe bs cs = true) : strLe as cs = true := by
  induction as generalizing bs cs with
  | nil => rfl
  | cons a as ih =>
    cases bs with
    | nil => simp [strLe] at h1
    | cons b bs =>
      cases cs with
      | nil => simp [strLe] at h2
      | cons c cs =>
        simp only [strLe] at h1 h2 ⊢
        rcases lt_trichotomy a b with hab | hab | hab
        · rcases lt_trichotomy b c with hbc | hbc | hbc
          · simp [lt_trans hab hbc]
          · subst hbc; simp [hab]
          · simp [hbc, not_lt_of_gt hbc] at h2
        · subst hab
          rcases lt_trichotomy a c with hac | hac | hac
          · simp [hac]
          · subst hac
            simp [lt_irrefl] at h1 h2 ⊢
            exact ih h1 h2
          · simp [hac, not_lt_of_gt hac] at h2
        · simp [hab, not_lt_of_gt hab] at h1

instance : IsTotal DirEntry nameLe := ⟨fun a b => strLe_total a.name.toList b.name.toList⟩

instance : IsTrans DirEntry nameLe := ⟨fun _ _ _ h1 h2 => strLe_trans h1 h2⟩

/-- Model of `sorted(modules_dir.iterdir())`: a stable sort of the directory
listing by name.  Python's `sorted` is stable, so it agrees with stable
insertion sort. -/
def sortByName (l : List DirEntry) : List DirEntry := List.insertionSort nameLe l

/-- Abstract state of the module root: whether `/lib/modules` exists, and
its directory listing (in arbitrary order; the script sorts it). -/
structure ModulesFS where
  rootExists : Bool
  entries : List DirEntry
deriving DecidableEq, Repr

/-- The `detect_installed_kernels` method: empty result when the module root
is missing, otherwise one record per parseable kernel directory, in
name-sorted listing order. -/
def detect_installed_kernels (fs : ModulesFS) (current_kernel : String) :
    List KernelInfo :=
  if !fs.rootExists then []
  else (sortByName fs.entries).filterMap (mkKernelInfo current_kernel)

/-- Model of a JSON-serialisable Python value (dicts keep insertion order). -/
inductive PyVal where
  | pybool (b : Bool)
  | pyint (n : Int)
  | pystr (s : String)
  | pylist (xs : List PyVal)
  | pydict (kvs : List (String × PyVal))
deriving Repr

/-- The hardware-capabilities mapping: a JSON object, kept as an ordered
key/value list. -/
def Hw : Type := List (String × PyVal)

/-- The empty mapping `{}`. -/
def emptyHw : Hw := []

/-- Exceptions that the script's `try/except` blocks can see.  (Python's
`except Exception` catches all of these; `KeyboardInterrupt` is a signal,
handled only at the top level of `run`, and is outside this model.) -/
inductive PyExn where
  | timeoutExpired
  | jsonDecodeError
  | otherError
deriving DecidableEq, Repr

/-- Outcome of the `subprocess.run(..., timeout=30)` call in
`run_hardware_detection`: it completes with some exit status (no `check=True`,
so a non-zero status raises nothing), exceeds the 30 second budget (raising
`TimeoutExpired`), or raises some other `Exception`. -/
inductive SubprocessOutcome where
  | completes (returncode : Int)
  | timesOut
  | raises
deriving Repr

/-- Environment of `run_hardware_detection`: whether `detect_hardware.py`
exists, the subprocess outcome, and the state of the two candidate JSON
files (`none` = absent, `some none` = present but malformed JSON,
`some (some h)` = present with contents `h`). -/
structure HWEnv where
  scriptExists : Bool
  subprocess : SubprocessOutcome
  file1 : Option (Option Hw)
  file2 : Option (Option Hw)

/-- The `try` body of `run_hardware_detection`: run the probe (timeout and
other failures raise), then scan the two candidate files in order, loading
the first one that exists (`json.load` raises on malformed contents); if
neither exists, `self.hw_capabilities` keeps its previous value. -/
def hwDetectBody (env : HWEnv) (prev : Hw) : Except PyExn Hw :=
  match env.subprocess with
  | .timesOut => .error .timeoutExpired
  | .raises => .error .otherError
  | .completes _ =>
    match env.file1 with
    | some (some h) => .ok h
    | some none => .error .jsonDecodeError
    | none =>
      match env.file2 with
      | some (some h) => .ok h
      | some none => .error .jsonDecodeError
      | none => .ok prev

/-- The `run_hardware_detection` method: early return with `{}` when the
probe script is missing, otherwise the `try` body with the `except` handler
setting `{}`.  The result is always `.ok`: no exception escapes. -/
def run_hardware_detection (env : HWEnv) (prev : Hw) : Except PyExn Hw :=
  if !env.scriptExists then .ok emptyHw
  else
    match hwDetectBody env prev with
    | .ok h => .ok h
    | .error _ => .ok emptyHw

/-- The value of `self.hw_capabilities` after `run_hardware_detection`
(total extraction; the `.error` branch is unreachable). -/
def hwResult (env : HWEnv) (prev : Hw) : Hw :=
  match run_hardware_detection env prev with
  | .ok h => h
  | .error _ => prev

/-- Environment of `check_and_fix_memory_saturation`: the memory-checker
script is missing, or the privileged subprocess completes with some exit
status, or something raises an `Exception`. -/
inductive MemEnv where
  | scriptMissing
  | completes (returncode : Int)
  | raises
deriving DecidableEq, Repr

/-- The `try` body of `check_and_fix_memory_saturation`.  The returned
`Bool` records whether the two-second pause (`time.sleep(2)`) ran, which
happens exactly on exit status 0; status 1 and all others just continue. -/
def memCheckBody : MemEnv → Except PyExn Bool
  | .scriptMissing => .ok false
  | .completes rc => .ok (rc == 0)
  | .raises => .error .otherError

/-- The `check_and_fix_memory_saturation` method: the `try` body with the
`except Exception: pass` handler.  Always `.ok`: the pre-check never raises
and never blocks the wizard. -/
def check_and_fix_memory_saturation (e : MemEnv) : Except PyExn Bool :=
  match memCheckBody e with
  | .ok b => .ok b
  | .error _ => .ok false

/-- Conversion of one selected `KernelInfo` to its dict form, shared verbatim
by `export_configuration` and the inline export in `run` (same keys, same
order). -/
def kernelToDict (k : KernelInfo) : PyVal :=
  .pydict [("full_version", .pystr k.full_version),
           ("version", .pystr k.version),
           ("major", .pyint k.major),
           ("minor", .pyint k.minor),
           ("patch", .pyint k.patch),
           ("is_current", .pybool k.is_current)]

/-- The fixed output path used by `export_configuration` (line 152). -/
def exportConfigPath : String := "/tmp/vmware_wizard_config.json"

/-- The fixed output path used by the inline export in `run` (line 355). -/
def runConfigPath : String := "/tmp/vmware_wizard_config.json"

/-- The config dict built by the `export_configuration` method: note the
`offer_system_tuning: True` key and the absence of `auto_configure_iommu`. -/
def export_configuration (selected : List KernelInfo) (mode : String)
    (hw : Hw) (now : Int) : List (String × PyVal) :=
  [("selected_kernels", .pylist (selected.map kernelToDict)),
   ("optimization_mode", .pystr mode),
   ("hw_capabilities", .pydict hw),
   ("timestamp", .pyint now),
   ("offer_system_tuning", .pybool true)]

/-- The config dict built inline in `run` (lines 340-353): note the
`auto_configure_iommu` key, derived from the optimization mode, and the
absence of `offer_system_tuning`. -/
def runConfig (selected : List KernelInfo) (mode : String)
    (hw : Hw) (now : Int) : List (String × PyVal) :=
  [("selected_kernels", .pylist (selected.map kernelToDict)),
   ("optimization_mode", .pystr mode),
   ("hw_capabilities", .pydict hw),
   ("timestamp", .pyint now),
   ("auto_configure_iommu", .pybool (mode == "optimized"))]

/-- The `show_error` message for an empty inventory (line 214). -/
def noKernelsMsg : String := "No kernels detected!"

/-- The `show_error` message for a non-empty inventory with no eligible
kernel (line 221). -/
def noSupportedMsg : String :=
  "No supported kernels (6.16.x, 6.17.x or 6.18.x) with headers found!"

/-- The `show_info` suggestion accompanying the no-eligible-kernels error
(line 222). -/
def installHeadersMsg : String :=
  "Please install kernel headers: sudo apt install linux-headers-$(uname -r)"

/-- Inputs that drive one execution of `run`: the pre-check environment, the
operator's answers, the filesystem, the probe environment, and the clock.
`kernelSel` is the index of the chosen entry in the selection menu; indices
past the eligible kernels denote the final "All supported kernels with
headers" entry. -/
structure RunEnv where
  mem : MemEnv
  confirmStart : Bool
  fs : ModulesFS
  current_kernel : String
  hw : HWEnv
  kernelSel : Nat
  chooseOptimized : Bool
  confirmProceed : Bool
  now : Int

/-- Observable outcome of one execution of `run`: its return value, the
config file written (path and contents), and the `show_error` /
relevant `show_info` messages displayed. -/
structure RunResult where
  exitCode : Int
  written : Option (String × List (String × PyVal))
  errors : List String
  infos : List String

/-- The main wizard flow (`run`), from the memory pre-check through kernel
detection, eligibility filtering, selection, hardware detection, mode
choice, and the final inline configuration export. -/
def run (e : RunEnv) : RunResult :=
  let _mem := check_and_fix_memory_saturation e.mem
  if !e.confirmStart then
    { exitCode := 1, written := none, errors := [], infos := [] }
  else
    let detected := detect_installed_kernels e.fs e.current_kernel
    if detected.isEmpty then
      { exitCode := 1, written := none, errors := [noKernelsMsg], infos := [] }
    else
      let supported_kernels :=
        detected.filter (fun k => k.supported && k.headers_installed)
      if supported_kernels.isEmpty then
        { exitCode := 1, written := none, errors := [noSupportedMsg],
          infos := [installHeadersMsg] }
      else
        let selected_kernels :=
          if h : e.kernelSel < supported_kernels.length
          then [supported_kernels.get ⟨e.kernelSel, h⟩]
          else supported_kernels
        let hw_capabilities := hwResult e.hw emptyHw
        let optimization_mode :=
          if e.chooseOptimized then "optimized" else "vanilla"
        if !e.confirmProceed then
          { exitCode := 1, written := none, errors := [], infos := [] }
        else
          { exitCode := 0,
            written := some (runConfigPath,
              runConfig selected_kernels optimization_mode hw_capabilities e.now),
            errors := [], infos := [] }

/-- Does the chosen exit-status-0 pause of the memory pre-check run?  True
exactly for exit status 0. -/
def memPaused : MemEnv → Bool
  | .completes rc => rc == 0
  | _ => false

/-- A version-string component in one of the three examined positions
(major, minor, patch) that Python `int` rejects. -/
def badVersionComponent (s : String) : Prop :=
  pyIntChars (partAt (versionParts s) 0) = none ∨
  (1 < (versionParts s).length ∧ pyIntChars (partAt (versionParts s) 1) = none) ∨
  (2 < (versionParts s).length ∧ pyIntChars (partAt (versionParts s) 2) = none)

instance (s : String) : Decidable (badVersionComponent s) := by
  unfold badVersionComponent; infer_instance

example : parseKernelName "6.16.3-arch1-1" = some (6, 16, 3) := by decide
example : parseKernelName "6.19.0-2-generic" = some (6, 19, 0) := by decide
example : parseKernelName "abc" = none := by decide
example : parseKernelName "6" = some (6, 0, 0) := by decide
example :
    detect_installed_kernels
      ⟨true, [⟨"6.16.0-generic", true, true, true⟩]⟩ "6.16.0-generic"
      = [⟨"6.16", "6.16.0-generic", 6, 16, 0, true,
          "/lib/modules/6.16.0-generic/build", true, true⟩] := by decide

/-! ### Helper lemmas -/

theorem mkKernelInfo_some {current : String} {e : DirEntry} {k : KernelInfo}
    (h : mkKernelInfo current e = some k) :
    e.isDir = true ∧ k.full_version = e.name ∧
    k.headers_installed = (e.buildExists && e.buildIsDir) ∧
    k.is_current = (e.name == current) ∧
    parseKernelName e.name = some (k.major, k.minor, k.patch) ∧
    k.version = toString k.major ++ "." ++ toString k.minor ∧
    k.supported = (k.major == 6 && (k.minor == 16 || k.minor == 17 || k.minor == 18)) := by
  by_cases hd : e.isDir
  · rw [mkKernelInfo] at h
    simp only [hd, Bool.not_true, Bool.false_eq_true, if_false] at h
    cases hp : parseKernelName e.name with
    | none => rw [hp] at h; exact absurd h (by simp)
    | some t =>
      obtain ⟨M, m, p⟩ := t
      rw [hp] at h
      simp only [Option.some.injEq] at h
      subst h
      exact ⟨hd, rfl, rfl, rfl, rfl, rfl, rfl⟩
  · rw [mkKernelInfo] at h
    simp [hd] at h

theorem mem_detect {fs : ModulesFS} {current : String} {k : KernelInfo}
    (hk : k ∈ detect_installed_kernels fs current) :
    ∃ e, e ∈ fs.entries ∧ mkKernelInfo current e = some k := by
  rw [detect_installed_kernels] at hk
  by_cases hr : fs.rootExists
  · simp only [hr, Bool.not_true, Bool.false_eq_true, if_false] at hk
    obtain ⟨e, he, hmk⟩ := List.mem_filterMap.mp hk
    exact ⟨e, ((List.perm_insertionSort nameLe fs.entries).mem_iff).mp he, hmk⟩
  · simp [hr] at hk

theorem badVersionComponent_parse_none {s : String}
    (h : badVersionComponent s) : parseKernelName s = none := by
  simp only [parseKernelName]
  rcases h with h | ⟨hl, h⟩ | ⟨hl, h⟩
  · simp [h]
  · cases h0 : pyIntChars (partAt (versionParts s) 0)
    · simp [h0]
    · simp [h0, hl, h]
  · have hl1 : 1 < (versionParts s).length := by omega
    cases h0 : pyIntChars (partAt (versionParts s) 0)
    · simp [h0]
    · cases h1 : pyIntChars (partAt (versionParts s) 1)
      · simp [h0, hl1, h1]
      · simp [h0, hl1, h1, hl, h]

/-! ### Claim theorems -/

/-- C1: for every kernel-directory name whose dash prefix parses as
`<int>.<int>[.<int>]` (with an optional dash suffix), the produced record has
`version = "{major}.{minor}"` and is supported iff `major = 6` and
`minor ∈ {16, 17, 18}`; in particular `minor = 19` is unsupported. -/
theorem C1_version_and_allowlist (current : String) (e : DirEntry) (M m p : Int)
    (hdir : e.isDir = true)
    (hparse : parseKernelName e.name = some (M, m, p))
    (hlen2 : 2 ≤ (versionParts e.name).length)
    (hlen3 : (versionParts e.name).length ≤ 3) :
    ∃ k, mkKernelInfo current e = some k ∧
      k.version = toString M ++ "." ++ toString m ∧
      (k.supported = true ↔ (M = 6 ∧ (m = 16 ∨ m = 17 ∨ m = 18))) ∧
      (m = 19 → k.supported = false) := by
  refine ⟨{ version := toString M ++ "." ++ toString m,
            full_version := e.name, major := M, minor := m, patch := p,
            headers_installed := e.buildExists && e.buildIsDir,
            headers_path := "/lib/modules/" ++ e.name ++ "/build",
            is_current := e.name == current,
            supported := M == 6 && (m == 16 || m == 17 || m == 18) },
          ?_, rfl, ?_, ?_⟩
  · rw [mkKernelInfo]
    simp [hdir, hparse]
  · simp only [Bool.and_eq_true, Bool.or_eq_true, beq_iff_eq, or_assoc]
  · intro hm
    subst hm
    have h19 : ((19 : Int) == 16 || (19 : Int) == 17 || (19 : Int) == 18) = false := by
      decide
    simp [h19]

/-- Witness for C1 at the concrete directory name `6.19.0-2-generic`. -/
theorem C1_version_and_allowlist_witness :
    ∃ k, mkKernelInfo "6.18.0-x" ⟨"6.19.0-2-generic", true, true, true⟩ = some k ∧
      k.version = toString (6 : Int) ++ "." ++ toString (19 : Int) ∧
      (k.supported = true ↔
        ((6 : Int) = 6 ∧ ((19 : Int) = 16 ∨ (19 : Int) = 17 ∨ (19 : Int) = 18))) ∧
      ((19 : Int) = 19 → k.supported = false) :=
  C1_version_and_allowlist "6.18.0-x" ⟨"6.19.0-2-generic", true, true, true⟩ 6 19 0
    rfl (by decide) (by decide) (by decide)

/-- C9: the memory/huge-page pre-check never raises for any subprocess
outcome or exception; the short pause runs exactly on exit status 0, every
other status (and a missing script, and any swallowed exception) just
continues. -/
theorem C9_memory_precheck_never_raises (e : MemEnv) :
    check_and_fix_memory_saturation e = Except.ok (memPaused e) ∧
    (memPaused e = true ↔ e = MemEnv.completes 0) := by
  cases e with
  | scriptMissing => exact ⟨rfl, by simp [memPaused]⟩
  | completes rc => exact ⟨rfl, by simp [memPaused]⟩
  | raises => exact ⟨rfl, by simp [memPaused]⟩

/-- C7: for every kernel record in the inventory, `headers_installed` is
true iff the entry's `build` child exists and is a directory; in particular
it is true when a `build` directory is present, false when `build` is
absent, and false when `build` exists but is not a directory. -/
theorem C7_headers_installed (fs : ModulesFS) (current : String) (k : KernelInfo)
    (hk : k ∈ detect_installed_kernels fs current) :
    ∃ e, e ∈ fs.entries ∧ k.full_version = e.name ∧
      (k.headers_installed = true ↔ (e.buildExists = true ∧ e.buildIsDir = true)) ∧
      (e.buildExists = true → e.buildIsDir = true → k.headers_installed = true) ∧
      (e.buildExists = false → k.headers_installed = false) ∧
      (e.buildExists = true → e.buildIsDir = false → k.headers_installed = false) := by
  obtain ⟨e, he, hmk⟩ := mem_detect hk
  obtain ⟨-, hfv, hh, -, -, -, -⟩ := mkKernelInfo_some hmk
  refine ⟨e, he, hfv, ?_, ?_, ?_, ?_⟩
  · rw [hh]; simp [Bool.and_eq_true]
  · intro h1 h2; rw [hh, h1, h2]; rfl
  · intro h1; rw [hh, h1]; rfl
  · intro h1 h2; rw [hh, h1, h2]; rfl

/-- Witness for C7 at a one-entry filesystem with a `build` directory. -/
theorem C7_headers_installed_witness :
    ∃ e, e ∈ (ModulesFS.mk true [⟨"6.16.0-generic", true, true, true⟩]).entries ∧
      (KernelInfo.mk "6.16" "6.16.0-generic" 6 16 0 true
        "/lib/modules/6.16.0-generic/build" false true).full_version = e.name ∧
      ((KernelInfo.mk "6.16" "6.16.0-generic" 6 16 0 true
        "/lib/modules/6.16.0-generic/build" false true).headers_installed = true ↔
        (e.buildExists = true ∧ e.buildIsDir = true)) ∧
      (e.buildExists = true → e.buildIsDir = true →
        (KernelInfo.mk "6.16" "6.16.0-generic" 6 16 0 true
          "/lib/modules/6.16.0-generic/build" false true).headers_installed = true) ∧
      (e.buildExists = false →
        (KernelInfo.mk "6.16" "6.16.0-generic" 6 16 0 true
          "/lib/modules/6.16.0-generic/build" false true).headers_installed = false) ∧
      (e.buildExists = true → e.buildIsDir = false →
        (KernelInfo.mk "6.16" "6.16.0-generic" 6 16 0 true
          "/lib/modules/6.16.0-generic/build" false true).headers_installed = false) :=
  C7_headers_installed ⟨true, [⟨"6.16.0-generic", true, true, true⟩]⟩ "z"
    ⟨"6.16", "6.16.0-generic", 6, 16, 0, true,
      "/lib/modules/6.16.0-generic/build", false, true⟩ (by decide)

/-- C6: a non-integer component in any of the examined major/minor/patch
positions silently drops the entry (no record is produced, and every record
in any inventory has a cleanly parsing name), while absent minor or patch
components default to 0 instead of causing exclusion.  The inventory builder
is a total function, so no exception propagates. -/
theorem C6_unparseable_dropped (current : String) (e : DirEntry) :
    (badVersionComponent e.name → mkKernelInfo current e = none) ∧
    (∀ fs k, k ∈ detect_installed_kernels fs current →
      ¬ badVersionComponent k.full_version) ∧
    (∀ M : Int, e.isDir = true → (versionParts e.name).length = 1 →
      pyIntChars (partAt (versionParts e.name) 0) = some M →
      ∃ k, mkKernelInfo current e = some k ∧
        k.major = M ∧ k.minor = 0 ∧ k.patch = 0) ∧
    (∀ M m : Int, e.isDir = true → (versionParts e.name).length = 2 →
      pyIntChars (partAt (versionParts e.name) 0) = some M →
      pyIntChars (partAt (versionParts e.name) 1) = some m →
      ∃ k, mkKernelInfo current e = some k ∧
        k.major = M ∧ k.minor = m ∧ k.patch = 0) := by
  refine ⟨?_, ?_, ?_, ?_⟩
  · intro hb
    rw [mkKernelInfo, badVersionComponent_parse_none hb]
    cases hd : e.isDir <;> simp
  · intro fs k hk hb
    obtain ⟨e2, _, hmk⟩ := mem_detect hk
    obtain ⟨-, hfv, -, -, hp, -, -⟩ := mkKernelInfo_some hmk
    rw [hfv] at hb
    rw [badVersionComponent_parse_none hb] at hp
    exact Option.noConfusion hp
  · intro M hdir hlen hM
    have hparse : parseKernelName e.name = some (M, 0, 0) := by
      simp only [parseKernelName]
      simp [hM, hlen]
    refine ⟨{ version := toString M ++ "." ++ toString (0 : Int),
              full_version := e.name, major := M, minor := 0, patch := 0,
              headers_installed := e.buildExists && e.buildIsDir,
              headers_path := "/lib/modules/" ++ e.name ++ "/build",
              is_current := e.name == current,
              supported := M == 6 &&
                ((0 : Int) == 16 || (0 : Int) == 17 || (0 : Int) == 18) },
            ?_, rfl, rfl, rfl⟩
    rw [mkKernelInfo]
    simp [hdir, hparse]
  · intro M m hdir hlen hM hm
    have hparse : parseKernelName e.name = some (M, m, 0) := by
      simp only [parseKernelName]
      simp [hM, hm, hlen]
    refine ⟨{ version := toString M ++ "." ++ toString m,
              full_version := e.name, major := M, minor := m, patch := 0,
              headers_installed := e.buildExists && e.buildIsDir,
              headers_path := "/lib/modules/" ++ e.name ++ "/build",
              is_current := e.name == current,
              supported := M == 6 && (m == 16 || m == 17 || m == 18) },
            ?_, rfl, rfl, rfl⟩
    rw [mkKernelInfo]
    simp [hdir, hparse]

/-- Witness for C6: the name `6.foo` is silently dropped, the bare name `6`
defaults minor and patch to 0, and the two-component name `6.16` defaults
only patch to 0. -/
theorem C6_unparseable_dropped_witness :
    mkKernelInfo "c" ⟨"6.foo", true, true, true⟩ = none ∧
    (∃ k, mkKernelInfo "c" ⟨"6", true, true, true⟩ = some k ∧
      k.major = 6 ∧ k.minor = 0 ∧ k.patch = 0) ∧
    (∃ k, mkKernelInfo "c" ⟨"6.16", true, true, true⟩ = some k ∧
      k.major = 6 ∧ k.minor = 16 ∧ k.patch = 0) :=
  ⟨(C6_unparseable_dropped "c" ⟨"6.foo", true, true, true⟩).1 (by decide),
   (C6_unparseable_dropped "c" ⟨"6", true, true, true⟩).2.2.1 6 rfl
     (by decide) (by decide),
   (C6_unparseable_dropped "c" ⟨"6.16", true, true, true⟩).2.2.2 6 16 rfl
     (by decide) (by decide) (by decide)⟩

/-- C2: the eligibility filter applied in `run` is exactly the sublist of
inventory records with `supported` and `headers_installed` both true,
preserving inventory order; and the inventory itself is in name-sorted
directory-listing order (it is never re-sorted by version number). -/
theorem C2_eligibility_filter_order (fs : ModulesFS) (current : String) :
    ((detect_installed_kernels fs current).filter
        (fun k => k.supported && k.headers_installed)).Sublist
      (detect_installed_kernels fs current) ∧
    (detect_installed_kernels fs current).filter
        (fun k => k.supported && k.headers_installed)
      = (detect_installed_kernels fs current).filter
          (fun k => decide (k.supported = true ∧ k.headers_installed = true)) ∧
    List.Pairwise
      (fun a b : KernelInfo => strLe a.full_version.toList b.full_version.toList = true)
      (detect_installed_kernels fs current) := by
  refine ⟨List.filter_sublist _, ?_, ?_⟩
  · refine List.filter_congr ?_
    intro k _
    cases hs : k.supported <;> cases hh : k.headers_installed <;> simp
  · rw [detect_installed_kernels]
    by_cases hr : fs.rootExists
    · simp only [hr, Bool.not_true, Bool.false_eq_true, if_false]
      have hs : List.Pairwise nameLe (sortByName fs.entries) :=
        List.sorted_insertionSort nameLe fs.entries
      refine List.pairwise_filterMap.mpr (hs.imp ?_)
      intro a b hab x hx y hy
      rw [Option.mem_def] at hx hy
      obtain ⟨-, hfa, -, -, -, -, -⟩ := mkKernelInfo_some hx
      obtain ⟨-, hfb, -, -, -, -, -⟩ := mkKernelInfo_some hy
      rw [hfa, hfb]
      exact hab
    · simp [hr]

theorem mkKernelInfo_none {current : String} {e : DirEntry}
    (h : mkKernelInfo current e = none) :
    e.isDir = false ∨ parseKernelName e.name = none := by
  by_cases hd : e.isDir
  · right
    rw [mkKernelInfo] at h
    simp only [hd, Bool.not_true, Bool.false_eq_true, if_false] at h
    cases hp : parseKernelName e.name with
    | none => rfl
    | some t =>
      obtain ⟨M, m, p⟩ := t
      rw [hp] at h
      exact absurd h (by simp)
  · left
    simpa using hd

theorem countP_filterMap_current (current : String) (l : List DirEntry) :
    (l.filterMap (mkKernelInfo current)).countP (fun k => k.is_current)
      = l.countP
          (fun e => e.isDir && (parseKernelName e.name).isSome && (e.name == current)) := by
  induction l with
  | nil => rfl
  | cons e l ih =>
    rw [List.filterMap_cons]
    cases hmk : mkKernelInfo current e with
    | none =>
      have hpred :
          (e.isDir && (parseKernelName e.name).isSome && (e.name == current)) = false := by
        rcases mkKernelInfo_none hmk with hd | hp
        · simp [hd]
        · simp [hp]
      rw [List.countP_cons, hpred, ih]
      simp
    | some k =>
      obtain ⟨hd, -, -, hic, hp, -, -⟩ := mkKernelInfo_some hmk
      rw [List.countP_cons, List.countP_cons, ih, hic, hd, hp]
      simp

theorem count_current_entries (current : String) (l : List DirEntry)
    (hnd : (l.map DirEntry.name).Nodup)
    (hw : ∃ e, e ∈ l ∧ e.isDir = true ∧ e.name = current ∧
      (parseKernelName e.name).isSome = true) :
    l.countP
        (fun e => e.isDir && (parseKernelName e.name).isSome && (e.name == current))
      = 1 := by
  induction l with
  | nil =>
    obtain ⟨e, he, -⟩ := hw
    exact absurd he (List.not_mem_nil e)
  | cons a l ih =>
    rw [List.map_cons, List.nodup_cons] at hnd
    obtain ⟨hna, hndl⟩ := hnd
    obtain ⟨e, he, hed, hen, hep⟩ := hw
    rw [List.countP_cons]
    rcases List.mem_cons.mp he with rfl | hel
    · have hpa : (e.isDir && (parseKernelName e.name).isSome && (e.name == current)) = true := by
        rw [hed, hep, hen]
        simp
      have h0 : l.countP
          (fun x => x.isDir && (parseKernelName x.name).isSome && (x.name == current)) = 0 := by
        rw [List.countP_eq_zero]
        intro x hx hpx
        simp only [Bool.and_eq_true, beq_iff_eq] at hpx
        have hmem : x.name ∈ l.map DirEntry.name := List.mem_map_of_mem DirEntry.name hx
        rw [hpx.2, ← hen] at hmem
        exact hna hmem
      rw [hpa, h0]
      simp
    · have hanc : a.name ≠ current := by
        intro hac
        have hmem : e.name ∈ l.map DirEntry.name := List.mem_map_of_mem DirEntry.name hel
        rw [hen, ← hac] at hmem
        exact hna hmem
      have hpa : (a.isDir && (parseKernelName a.name).isSome && (a.name == current)) = false := by
        simp [hanc]
      rw [hpa, ih hndl ⟨e, hel, hed, hen, hep⟩]
      simp

/-- Counterexample to C8 as stated: the running release string `abc` equals
the name of a directory in the module root, but that name does not parse, so
no record is produced at all and zero (not one) records have `is_current`. -/
theorem C8_counterexample :
    (∃ e, e ∈ (ModulesFS.mk true [⟨"abc", true, false, false⟩]).entries ∧
      e.isDir = true ∧ e.name = "abc") ∧
    ¬ ((detect_installed_kernels ⟨true, [⟨"abc", true, false, false⟩]⟩ "abc").countP
        (fun k => k.is_current) = 1) := by decide

/-- C8 (amended): if the running release string equals the name of some
directory in the module root whose name also parses, and directory names are
distinct (as in a real directory listing), then exactly one inventory record
has `is_current` true. -/
theorem C8_amended_unique_current (fs : ModulesFS) (current : String)
    (hroot : fs.rootExists = true)
    (hnd : (fs.entries.map DirEntry.name).Nodup)
    (hw : ∃ e, e ∈ fs.entries ∧ e.isDir = true ∧ e.name = current ∧
      (parseKernelName e.name).isSome = true) :
    (detect_installed_kernels fs current).countP (fun k => k.is_current) = 1 := by
  rw [detect_installed_kernels]
  simp only [hroot, Bool.not_true, Bool.false_eq_true, if_false]
  rw [countP_filterMap_current]
  have hperm : (sortByName fs.entries).Perm fs.entries :=
    List.perm_insertionSort nameLe fs.entries
  rw [hperm.countP_eq]
  exact count_current_entries current fs.entries hnd hw

/-- Witness for the amended C8 at a one-entry filesystem. -/
theorem C8_amended_unique_current_witness :
    (detect_installed_kernels ⟨true, [⟨"6.16.0-generic", true, true, true⟩]⟩
      "6.16.0-generic").countP (fun k => k.is_current) = 1 :=
  C8_amended_unique_current ⟨true, [⟨"6.16.0-generic", true, true, true⟩]⟩
    "6.16.0-generic" rfl (by decide) (by decide)

/-- Counterexample to C3 as stated: the probe subprocess exits with the
non-zero status 1, yet `run_hardware_detection` never inspects the exit
status; a valid capabilities file present on disk is loaded, so the
resulting `hw_capabilities` is not the empty mapping. -/
theorem C3_counterexample :
    hwResult ⟨true, SubprocessOutcome.completes 1,
        some (some [("cpu", PyVal.pystr "x")]), none⟩ emptyHw
      = [("cpu", PyVal.pystr "x")] ∧
    hwResult ⟨true, SubprocessOutcome.completes 1,
        some (some [("cpu", PyVal.pystr "x")]), none⟩ emptyHw
      ≠ emptyHw :=
  ⟨rfl, fun h => nomatch h⟩

/-- C3 (amended): a timeout (and a missing script, and malformed JSON in the
first readable candidate file) leaves `hw_capabilities` as the empty
mapping, and no exception ever escapes the hardware-detection step; a
non-zero exit status, however, is never inspected, so after it the mapping
is empty only when no readable capabilities file is present (with the two
candidate files absent the previous value, empty at this point of the flow,
is kept). -/
theorem C3_amended_probe_failures (env : HWEnv) (prev : Hw) :
    (∃ h, run_hardware_detection env prev = Except.ok h) ∧
    (env.subprocess = SubprocessOutcome.timesOut → hwResult env prev = emptyHw) ∧
    (env.scriptExists = false → hwResult env prev = emptyHw) ∧
    (∀ rc, env.subprocess = SubprocessOutcome.completes rc →
      env.file1 = some none → hwResult env prev = emptyHw) ∧
    (∀ rc, env.subprocess = SubprocessOutcome.completes rc →
      env.file1 = none → env.file2 = some none → hwResult env prev = emptyHw) ∧
    (∀ rc, env.scriptExists = true →
      env.subprocess = SubprocessOutcome.completes rc →
      env.file1 = none → env.file2 = none → hwResult env prev = prev) := by
  obtain ⟨se, sp, f1, f2⟩ := env
  refine ⟨?_, ?_, ?_, ?_, ?_, ?_⟩
  · cases se
    · exact ⟨emptyHw, rfl⟩
    · cases sp with
      | timesOut => exact ⟨emptyHw, rfl⟩
      | raises => exact ⟨emptyHw, rfl⟩
      | completes rc =>
        rcases f1 with - | - | h1
        · rcases f2 with - | - | h2
          · exact ⟨prev, rfl⟩
          · exact ⟨emptyHw, rfl⟩
          · exact ⟨h2, rfl⟩
        · exact ⟨emptyHw, rfl⟩
        · exact ⟨h1, rfl⟩
  · intro hsp
    cases hsp
    cases se <;> rfl
  · intro hse
    cases hse
    rfl
  · intro rc hsp hf1
    cases hsp
    cases hf1
    cases se <;> rfl
  · intro rc hsp hf1 hf2
    cases hsp
    cases hf1
    cases hf2
    cases se <;> rfl
  · intro rc hse hsp hf1 hf2
    cases hse
    cases hsp
    cases hf1
    cases hf2
    rfl

/-- Witness for the amended C3: a timed-out probe yields the empty
mapping. -/
theorem C3_amended_probe_failures_witness :
    hwResult ⟨true, SubprocessOutcome.timesOut, none, none⟩ emptyHw = emptyHw :=
  (C3_amended_probe_failures ⟨true, SubprocessOutcome.timesOut, none, none⟩
    emptyHw).2.1 rfl

/-- C4: with a non-empty raw inventory but an empty eligible subset, `run`
terminates with return value 1, shows the distinct "no supported kernels
with headers" error together with the header-installation suggestion, and
writes no configuration artifact; an empty inventory instead shows the
"no kernels detected" error, also returning 1 without writing. -/
theorem C4_failure_variants (e : RunEnv)
    (hc : e.confirmStart = true)
    (hne : detect_installed_kernels e.fs e.current_kernel ≠ [])
    (hel : (detect_installed_kernels e.fs e.current_kernel).filter
        (fun k => k.supported && k.headers_installed) = []) :
    run e = { exitCode := 1, written := none, errors := [noSupportedMsg],
              infos := [installHeadersMsg] } ∧
    noSupportedMsg ≠ noKernelsMsg ∧
    (∀ e2 : RunEnv, e2.confirmStart = true →
      detect_installed_kernels e2.fs e2.current_kernel = [] →
      run e2 = { exitCode := 1, written := none, errors := [noKernelsMsg],
                 infos := [] }) := by
  refine ⟨?_, by decide, ?_⟩
  · rw [run]
    have h1 : (detect_installed_kernels e.fs e.current_kernel).isEmpty = false := by
      cases hd : detect_installed_kernels e.fs e.current_kernel
      · exact absurd hd hne
      · rfl
    have h2 : ((detect_installed_kernels e.fs e.current_kernel).filter
        (fun k => k.supported && k.headers_installed)).isEmpty = true := by
      rw [hel]; rfl
    simp [hc, h1, h2]
  · intro e2 hc2 hd2
    rw [run]
    have h1 : (detect_installed_kernels e2.fs e2.current_kernel).isEmpty = true := by
      rw [hd2]; rfl
    simp [hc2, h1]

/-- Witness for C4: an inventory holding only the unsupported kernel
`6.19.0-2` is non-empty with an empty eligible subset. -/
theorem C4_failure_variants_witness :
    run ⟨MemEnv.scriptMissing, true, ⟨true, [⟨"6.19.0-2", true, true, true⟩]⟩,
        "c", ⟨false, SubprocessOutcome.raises, none, none⟩, 0, true, true, 0⟩
      = { exitCode := 1, written := none, errors := [noSupportedMsg],
          infos := [installHeadersMsg] } :=
  (C4_failure_variants
    ⟨MemEnv.scriptMissing, true, ⟨true, [⟨"6.19.0-2", true, true, true⟩]⟩,
      "c", ⟨false, SubprocessOutcome.raises, none, none⟩, 0, true, true, 0⟩
    rfl (by decide) (by decide)).1

theorem run_written_eq {e : RunEnv} {path : String} {cfg : List (String × PyVal)}
    (hw : (run e).written = some (path, cfg)) :
    path = runConfigPath ∧
    ∃ sel, cfg = runConfig sel
      (if e.chooseOptimized then "optimized" else "vanilla")
      (hwResult e.hw emptyHw) e.now := by
  simp only [run] at hw
  split at hw
  · exact absurd hw (by simp)
  · split at hw
    · exact absurd hw (by simp)
    · split at hw
      · exact absurd hw (by simp)
      · split at hw
        · exact absurd hw (by simp)
        · simp only [Option.some.injEq, Prod.mk.injEq] at hw
          exact ⟨hw.1.symm, ⟨_, hw.2.symm⟩⟩

theorem runConfig_lookup (sel : List KernelInfo) (mode : String) (hwc : Hw)
    (now : Int) :
    (runConfig sel mode hwc now).lookup "auto_configure_iommu"
      = some (PyVal.pybool (mode == "optimized")) ∧
    (runConfig sel mode hwc now).lookup "optimization_mode"
      = some (PyVal.pystr mode) ∧
    (runConfig sel mode hwc now).lookup "offer_system_tuning" = none := by
  refine ⟨?_, ?_, ?_⟩ <;> simp [runConfig, List.lookup]

/-- C5: in every configuration exported by `run`, `auto_configure_iommu` is
true exactly when `optimization_mode` is `optimized`, and the mode is always
one of the two menu values `optimized` and `vanilla`. -/
theorem C5_iommu_iff_optimized (e : RunEnv) (path : String)
    (cfg : List (String × PyVal))
    (hw : (run e).written = some (path, cfg)) :
    (cfg.lookup "auto_configure_iommu" = some (PyVal.pybool true) ↔
      cfg.lookup "optimization_mode" = some (PyVal.pystr "optimized")) ∧
    (cfg.lookup "optimization_mode" = some (PyVal.pystr "optimized") ∨
      cfg.lookup "optimization_mode" = some (PyVal.pystr "vanilla")) := by
  obtain ⟨-, sel, hc⟩ := run_written_eq hw
  cases hopt : e.chooseOptimized with
  | false =>
    rw [hopt] at hc
    simp only [Bool.false_eq_true, if_false] at hc
    subst hc
    obtain ⟨hl1, hl2, -⟩ :=
      runConfig_lookup sel "vanilla" (hwResult e.hw emptyHw) e.now
    rw [hl1, hl2]
    simp
  | true =>
    rw [hopt] at hc
    simp only [if_true] at hc
    subst hc
    obtain ⟨hl1, hl2, -⟩ :=
      runConfig_lookup sel "optimized" (hwResult e.hw emptyHw) e.now
    rw [hl1, hl2]
    simp

/-- Witness for C5 on a full concrete wizard run through the export. -/
theorem C5_iommu_iff_optimized_witness :
    ((runConfig [⟨"6.16", "6.16.0-generic", 6, 16, 0, true,
          "/lib/modules/6.16.0-generic/build", true, true⟩]
        "optimized" emptyHw 12345).lookup "auto_configure_iommu"
        = some (PyVal.pybool true) ↔
      (runConfig [⟨"6.16", "6.16.0-generic", 6, 16, 0, true,
          "/lib/modules/6.16.0-generic/build", true, true⟩]
        "optimized" emptyHw 12345).lookup "optimization_mode"
        = some (PyVal.pystr "optimized")) ∧
    ((runConfig [⟨"6.16", "6.16.0-generic", 6, 16, 0, true,
          "/lib/modules/6.16.0-generic/build", true, true⟩]
        "optimized" emptyHw 12345).lookup "optimization_mode"
        = some (PyVal.pystr "optimized") ∨
      (runConfig [⟨"6.16", "6.16.0-generic", 6, 16, 0, true,
          "/lib/modules/6.16.0-generic/build", true, true⟩]
        "optimized" emptyHw 12345).lookup "optimization_mode"
        = some (PyVal.pystr "vanilla")) :=
  C5_iommu_iff_optimized
    ⟨MemEnv.scriptMissing, true, ⟨true, [⟨"6.16.0-generic", true, true, true⟩]⟩,
      "6.16.0-generic", ⟨false, SubprocessOutcome.raises, none, none⟩,
      0, true, true, 12345⟩
    runConfigPath
    (runConfig [⟨"6.16", "6.16.0-generic", 6, 16, 0, true,
        "/lib/modules/6.16.0-generic/build", true, true⟩]
      "optimized" emptyHw 12345)
    rfl

/-- C10: the program has two configuration exports aimed at the same fixed
path.  Every artifact the wizard flow actually writes goes to that path and
is the inline `run` config, which carries `auto_configure_iommu` and no
`offer_system_tuning`; the `export_configuration` method instead always
writes `offer_system_tuning: true` and no `auto_configure_iommu`, and its
output differs from the inline config on every state. -/
theorem C10_two_export_routines (e : RunEnv) (path : String)
    (cfg : List (String × PyVal))
    (hw : (run e).written = some (path, cfg)) :
    exportConfigPath = runConfigPath ∧
    path = runConfigPath ∧
    (∃ sel mode hwc now, cfg = runConfig sel mode hwc now) ∧
    cfg.lookup "offer_system_tuning" = none ∧
    (cfg.lookup "auto_configure_iommu").isSome = true ∧
    (∀ sel mode hwc now,
      (export_configuration sel mode hwc now).lookup "offer_system_tuning"
        = some (PyVal.pybool true) ∧
      (export_configuration sel mode hwc now).lookup "auto_configure_iommu"
        = none ∧
      export_configuration sel mode hwc now ≠ runConfig sel mode hwc now) := by
  obtain ⟨hp, sel, hc⟩ := run_written_eq hw
  subst hc
  obtain ⟨hl1, -, hl3⟩ := runConfig_lookup sel
    (if e.chooseOptimized then "optimized" else "vanilla")
    (hwResult e.hw emptyHw) e.now
  refine ⟨rfl, hp, ⟨sel, _, _, _, rfl⟩, hl3, ?_, ?_⟩
  · rw [hl1]; rfl
  · intro sel2 mode2 hwc2 now2
    refine ⟨?_, ?_, ?_⟩
    · simp [export_configuration, List.lookup]
    · simp [export_configuration, List.lookup]
    · intro hEq
      simp [export_configuration, runConfig] at hEq

/-- Witness for C10 on a full concrete wizard run through the export. -/
theorem C10_two_export_routines_witness :
    (runConfig [⟨"6.16", "6.16.0-generic", 6, 16, 0, true,
          "/lib/modules/6.16.0-generic/build", true, true⟩]
        "vanilla" emptyHw 77).lookup "offer_system_tuning" = none ∧
    ((runConfig [⟨"6.16", "6.16.0-generic", 6, 16, 0, true,
          "/lib/modules/6.16.0-generic/build", true, true⟩]
        "vanilla" emptyHw 77).lookup "auto_configure_iommu").isSome = true :=
  ⟨(C10_two_export_routines
      ⟨MemEnv.scriptMissing, true, ⟨true, [⟨"6.16.0-generic", true, true, true⟩]⟩,
        "6.16.0-generic", ⟨false, SubprocessOutcome.raises, none, none⟩,
        0, false, true, 77⟩
      runConfigPath
      (runConfig [⟨"6.16", "6.16.0-generic", 6, 16, 0, true,
          "/lib/modules/6.16.0-generic/build", true, true⟩]
        "vanilla" emptyHw 77)
      rfl).2.2.2.1,
   (C10_two_export_routines
      ⟨MemEnv.scriptMissing, true, ⟨true, [⟨"6.16.0-generic", true, true, true⟩]⟩,
        "6.16.0-generic", ⟨false, SubprocessOutcome.raises, none, none⟩,
        0, false, true, 77⟩
      runConfigPath
      (runConfig [⟨"6.16", "6.16.0-generic", 6, 16, 0, true,
          "/lib/modules/6.16.0-generic/build", true, true⟩]
        "vanilla" emptyHw 77)
      rfl).2.2.2.2.1⟩
